import Mathlib

/-!
Shallow embedding of the wallpaper subsystem of wayfire-plugins-extra
(src/wallpaper.cpp): per-tile background download workers, eventfd-style
completion notification, the consumer-side completion handler with its
retry/backoff state machine, the all-tiles barrier commit with from/to/tmp
texture rotation, and teardown.

External collaborators (libcurl transport, jpeg decoder, GL texture upload,
the host event loop) are modelled as inputs: each worker-loop iteration is
driven by a StepIn record giving the outcomes of the libcurl calls of that
iteration, and the decoder is an argument of type List Nat → SimpleTexture
(a pure function from compressed bytes to a texture, as the source treats
it).  State mutation through C++ references is modelled by explicit state
passing; the grid of observer pointers becomes a List (List Wallpaper)
updated in place with setTile.  Calls with observable effects (timer arming,
thread spawn, buffer rotation, fade start) are additionally recorded in a
WAction trace so that theorems can speak about which calls a run performs.
-/

/-- RETRY_TIMEOUT from wallpaper.cpp line 47: the fixed delayed-retry
backoff in milliseconds. -/
def RETRY_TIMEOUT : Nat := 1000

/-- wf::simple_texture_t as the handler uses it: a decoded image slot with
its dimensions.  The GL texture id is irrelevant to the control flow and
is elided; equality of textures is equality of decoded content ids. -/
structure SimpleTexture where
  width : Int
  height : Int
  deriving Repr, DecidableEq

/-- wlr_box: x, y, width, height. -/
structure WlrBox where
  x : Int
  y : Int
  width : Int
  height : Int
  deriving Repr, DecidableEq

/-- The per-tile state of class wallpaper (wallpaper.cpp lines 51-73).
sig_fd is the eventfd (none = closed), image_fp the open_memstream buffer
(none = closed, some bytes = open stream holding those bytes), image_size
the size variable open_memstream maintains (updated at fflush), thread
whether a live worker thread handle is owned, event_source whether the fd
is registered with the event loop.  fromTex/toTex/tmpTex are the
unique_ptr texture slots named from/to/tmp in the source. -/
structure Wallpaper where
  sig_fd : Option Nat := none
  image_fp : Option (List Nat) := none
  geometry : WlrBox := ⟨0, 0, 0, 0⟩
  image_size : Nat := 0
  failed_counter : Nat := 0
  event_source : Bool := false
  downloaded : Bool := false
  download_failed : Bool := false
  thread : Bool := false
  fromTex : Option SimpleTexture := none
  toTex : Option SimpleTexture := none
  tmpTex : Option SimpleTexture := none
  deriving Repr, DecidableEq

instance : Inhabited Wallpaper := ⟨{}⟩

/-- The consumer-side state of class wayfire_wallpaper_screen
(wallpaper.cpp lines 86-97): the shared wf::wl_timer (modelled by whether
it is connected), the shutdown flag, the tile grid, the cycle options and
the output dimensions.  output->get_relative_geometry() always has origin
(0,0), so only width/height are carried. -/
structure Screen where
  timer_connected : Bool
  wallpaper_shutdown : Bool
  hook_set : Bool
  wallpapers : List (List Wallpaper)
  cycle : Bool
  cycle_time : Nat
  output_width : Int
  output_height : Int
  deriving Repr, DecidableEq

/-- output->get_relative_geometry(): origin (0,0) with the output's size. -/
def get_relative_geometry (s : Screen) : WlrBox :=
  ⟨0, 0, s.output_width, s.output_height⟩

/-- Reading s.wallpapers[x][y] (an observer pointer dereference). -/
def getTile (g : List (List Wallpaper)) (x y : Nat) : Wallpaper :=
  ((g[x]?.getD [])[y]?).getD default

/-- Writing through the observer pointer s.wallpapers[x][y]: the grid with
the (x,y) entry replaced. -/
def setTile (g : List (List Wallpaper)) (x y : Nat) (wp : Wallpaper) :
    List (List Wallpaper) :=
  g.set x ((g[x]?.getD []).set y wp)

/-- Observable calls of a consumer-side run, in program order. -/
inductive WAction where
  | drainNotification
  | cleanUpTile
  | setTimer (timeout : Nat)
  | timerDisconnect
  | updateWallpaperCall
  | createEventfd
  | openMemstream
  | addFdListener
  | spawnThread
  | decodeJpeg
  | commitSwap
  | startFade
  | activateHooks
  deriving Repr, DecidableEq

/-- clean_up (wallpaper.cpp lines 75-84): remove the event source, join and
reset the thread, fclose the memstream, free its buffer, close the eventfd.
image_size, counters and texture slots are untouched. -/
def clean_up (wp : Wallpaper) : Wallpaper :=
  { wp with event_source := false, thread := false, image_fp := none,
            sig_fd := none }

/-- update_wallpaper (wallpaper.cpp lines 438-462).  If the tile still owns
a live thread, only the shared timer is re-armed with RETRY_TIMEOUT.
Otherwise eventfd() and open_memstream() are attempted (their success is an
environment input; on failure the timer is disconnected and the attempt
aborted), the tile's geometry is recorded from the output, the fd is
registered with the event loop and the worker thread is spawned.  nfd is
the fd value the environment hands out. -/
def update_wallpaper (s : Screen) (x y : Nat) (efd mso : Bool) (nfd : Nat) :
    Screen × List WAction :=
  let wp := getTile s.wallpapers x y
  if wp.thread then
    ({ s with timer_connected := true }, [WAction.setTimer RETRY_TIMEOUT])
  else if ¬efd then
    ({ s with timer_connected := false },
     [WAction.createEventfd, WAction.timerDisconnect])
  else if ¬mso then
    ({ s with timer_connected := false },
     [WAction.createEventfd, WAction.openMemstream, WAction.timerDisconnect])
  else
    let wp1 := { wp with
                 sig_fd := some nfd, image_fp := some [],
                 geometry := get_relative_geometry s,
                 event_source := true, thread := true }
    ({ s with wallpapers := setTile s.wallpapers x y wp1 },
     [WAction.createEventfd, WAction.openMemstream, WAction.addFdListener,
      WAction.spawnThread])

/-- texture_from_jpeg_fp (wallpaper.cpp lines 171-216): decodes the stream
into the texture and returns a Bool.  The source has no failure path: the
function ends in return true unconditionally, so the Bool component is
constantly true whatever the bytes are.  The decode itself is the external
decoder, passed in as a pure function. -/
def texture_from_jpeg_fp (decode : List Nat → SimpleTexture)
    (buf : List Nat) : SimpleTexture × Bool :=
  (decode buf, true)

/-- fflush(wp.image_fp): open_memstream publishes the current buffer length
into the size variable. -/
def flush_size (wp : Wallpaper) : Wallpaper :=
  { wp with image_size := (wp.image_fp.getD []).length }

/-- download_complete lines 350-354: compare the geometry recorded at fetch
start with the output's current relative geometry; on width or height
mismatch set download_failed. -/
def geometry_checked (s : Screen) (wp : Wallpaper) : Wallpaper :=
  if wp.geometry.width ≠ s.output_width ∨
     wp.geometry.height ≠ s.output_height then
    { wp with download_failed := true }
  else
    wp

/-- download_complete line 376: wp.download_failed = false written through
the tile reference after the retry decision. -/
def clear_failed (s : Screen) (x y : Nat) : Screen :=
  { s with
    wallpapers := setTile s.wallpapers x y
      { getTile s.wallpapers x y with download_failed := false } }

/-- The failure branch of download_complete (wallpaper.cpp lines 356-378):
clean_up, increment failed_counter; if it exceeds 3, arm the shared timer
with RETRY_TIMEOUT unless it is already connected; otherwise call
update_wallpaper immediately; finally clear download_failed. -/
def fail_path (s : Screen) (x y : Nat) (wp : Wallpaper) (efd mso : Bool)
    (nfd : Nat) : Screen × List WAction × Int :=
  let wp1 := { clean_up wp with failed_counter := wp.failed_counter + 1 }
  let s1 := { s with wallpapers := setTile s.wallpapers x y wp1 }
  if wp1.failed_counter > 3 then
    if s1.timer_connected then
      (clear_failed s1 x y, [WAction.drainNotification, WAction.cleanUpTile], 0)
    else
      (clear_failed { s1 with timer_connected := true } x y,
       [WAction.drainNotification, WAction.cleanUpTile,
        WAction.setTimer RETRY_TIMEOUT], 0)
  else
    let p := update_wallpaper s1 x y efd mso nfd
    (clear_failed p.1 x y,
     [WAction.drainNotification, WAction.cleanUpTile,
      WAction.updateWallpaperCall] ++ p.2, 0)

/-- The barrier check of download_complete (wallpaper.cpp lines 393-406):
the nested loop with early exit over the whole grid, true iff every tile
has downloaded set. -/
def all_tiles_downloaded (g : List (List Wallpaper)) : Bool :=
  g.all fun col => col.all fun wp => wp.downloaded

/-- The commit loop of download_complete (wallpaper.cpp lines 413-424): for
every tile of the grid, from ← to, to ← tmp, tmp reset, downloaded and
download_failed cleared. -/
def commit_swap (g : List (List Wallpaper)) : List (List Wallpaper) :=
  g.map fun col => col.map fun wp =>
    { wp with fromTex := wp.toTex, toTex := wp.tmpTex, tmpTex := none,
              downloaded := false, download_failed := false }

/-- The success branch of download_complete (wallpaper.cpp lines 380-433):
mark downloaded, reset failed_counter, decode into tmp, re-evaluate the
barrier; when every tile has downloaded, rotate all buffers, start the fade
animation, activate the hooks and, when cycling is enabled, arm the next
cycle's timer; in every case finish with clean_up of this tile. -/
def success_path (s : Screen) (x y : Nat) (wp : Wallpaper)
    (decode : List Nat → SimpleTexture) : Screen × List WAction × Int :=
  let wp1 := { wp with
               downloaded := true, failed_counter := 0,
               tmpTex :=
                 some (texture_from_jpeg_fp decode (wp.image_fp.getD [])).1 }
  let g1 := setTile s.wallpapers x y wp1
  if all_tiles_downloaded g1 then
    let s2 := { s with
                wallpapers := commit_swap g1,
                hook_set := true,
                timer_connected :=
                  if s.cycle then true else s.timer_connected }
    ({ s2 with
       wallpapers :=
         setTile s2.wallpapers x y (clean_up (getTile s2.wallpapers x y)) },
     [WAction.drainNotification, WAction.decodeJpeg, WAction.commitSwap,
      WAction.startFade, WAction.activateHooks] ++
       (if s.cycle then [WAction.setTimer s.cycle_time] else []) ++
       [WAction.cleanUpTile], 0)
  else
    ({ s with wallpapers := setTile s.wallpapers x y (clean_up wp1) },
     [WAction.drainNotification, WAction.decodeJpeg, WAction.cleanUpTile], 0)

/-- download_complete (wallpaper.cpp lines 319-436), the consumer-side
completion handler.  readable models mask & WL_EVENT_READABLE.  In order:
drain the notification (or bail out if not readable), bail out if no thread
is tracked, full cleanup and return if shutdown was requested, fflush the
stream, re-check the geometry, then dispatch on
download_failed || image_size == 0 to the failure or success branch. -/
def download_complete (s : Screen) (x y : Nat) (readable : Bool)
    (decode : List Nat → SimpleTexture) (efd mso : Bool) (nfd : Nat) :
    Screen × List WAction × Int :=
  let wp := getTile s.wallpapers x y
  if ¬readable then
    (s, [], 0)
  else if ¬wp.thread then
    (s, [WAction.drainNotification], 0)
  else if s.wallpaper_shutdown then
    ({ s with wallpapers := setTile s.wallpapers x y (clean_up wp) },
     [WAction.drainNotification, WAction.cleanUpTile], 0)
  else
    let wp2 := geometry_checked s (flush_size wp)
    if wp2.download_failed = true ∨ wp2.image_size = 0 then
      fail_path s x y wp2 efd mso nfd
    else
      success_path s x y wp2 decode

/-- One iteration's environment inputs for the worker's transfer loop
(wallpaper.cpp lines 270-305): whether curl_multi_perform and
curl_multi_wait returned CURLM_OK, the bytes libcurl hands write_cb during
the perform step, the numfds curl_multi_wait reports, whether the transfer
is still running after the perform step, and the value of the shared
wallpaper_shutdown flag as this iteration observes it. -/
structure StepIn where
  performOk : Bool
  waitOk : Bool
  chunk : List Nat
  numfds : Nat
  still_running : Bool
  sdown : Bool
  deriving Repr, DecidableEq

/-- write_cb (wallpaper.cpp lines 218-237): libcurl's write callback.
Returns the updated stream and the count written: 0 when the shutdown flag
is set or the stream is missing, otherwise the chunk is appended. -/
def write_cb (sdown : Bool) (stream : Option (List Nat))
    (chunk : List Nat) : Option (List Nat) × Nat :=
  if sdown then
    (stream, 0)
  else
    match stream with
    | none => (none, 0)
    | some buf => (some (buf ++ chunk), chunk.length)

/-- Observable side effects of a worker run. -/
inductive WorkerEffect where
  | bufferWrite (n : Nat)
  | sleepUsec (n : Nat)
  | sigWrite (fd : Option Nat)
  deriving Repr, DecidableEq

/-- Worker-local loop state: the tile as the worker sees it, plus the
repeats and chunks counters of curl_download. -/
structure LoopState where
  wp : Wallpaper
  repeats : Nat
  chunks : Nat
  deriving Repr, DecidableEq

/-- One iteration of the do-while transfer loop of curl_download
(wallpaper.cpp lines 270-305): the body followed by one evaluation of the
loop condition still_running && (!wallpaper_shutdown || chunks++ < 10).
A curl_multi_perform or curl_multi_wait error sets download_failed and
breaks.  && and || short-circuit, so chunks is incremented exactly at the
condition evaluations that observe the shutdown flag set.  Returns the
updated state, whether the loop re-enters, and the iteration's effects. -/
def loop_body (step : StepIn) (st : LoopState) :
    LoopState × Bool × List WorkerEffect :=
  if ¬step.performOk then
    ({ st with wp := { st.wp with download_failed := true } }, false, [])
  else
    let w := write_cb step.sdown st.wp.image_fp step.chunk
    let st1 := { st with wp := { st.wp with image_fp := w.1 } }
    if ¬step.waitOk then
      ({ st1 with wp := { st1.wp with download_failed := true } }, false,
       [WorkerEffect.bufferWrite w.2])
    else
      let st2 :=
        if step.numfds = 0 then
          { st1 with repeats := st1.repeats + 1 }
        else
          { st1 with repeats := 0 }
      let effs :=
        [WorkerEffect.bufferWrite w.2] ++
          (if step.numfds = 0 ∧ st1.repeats + 1 > 1 then
            [WorkerEffect.sleepUsec 100000]
          else
            [])
      if ¬step.still_running then
        (st2, false, effs)
      else if ¬step.sdown then
        (st2, true, effs)
      else if st2.chunks < 10 then
        ({ st2 with chunks := st2.chunks + 1 }, true, effs)
      else
        ({ st2 with chunks := st2.chunks + 1 }, false, effs)

/-- The do-while transfer loop of curl_download (wallpaper.cpp lines
270-305): iterate loop_body while its condition re-enters, one recursive
step per iteration, driven by the list of environment inputs.  Returns the
final state, the number of iterations executed and the effect trace.  An
exhausted input list means the environment ended the transfer. -/
def curl_loop : List StepIn → LoopState → LoopState × Nat × List WorkerEffect
  | [], st => (st, 0, [])
  | step :: rest, st =>
    let b := loop_body step st
    if b.2.1 then
      let r := curl_loop rest b.1
      (r.1, r.2.1 + 1, b.2.2 ++ r.2.2)
    else
      (b.1, 1, b.2.2)

/-- curl_download (wallpaper.cpp lines 239-317), the fetch worker body:
run the transfer loop, then release the curl handles and perform the
single 8-byte write to the tile's eventfd.  http_status is the final HTTP
status code of the transfer as the environment would report it; the source
sets no CURLOPT_FAILONERROR and never queries the status, which this
definition reflects by ignoring the argument.  Returns the tile as the
worker leaves it, the iteration count and the effect trace. -/
def curl_download (wp : Wallpaper) (steps : List StepIn)
    (http_status : Nat) : Wallpaper × Nat × List WorkerEffect :=
  let r := curl_loop steps { wp := wp, repeats := 0, chunks := 0 }
  let _keep := http_status
  (r.1.wp, r.2.1, r.2.2 ++ [WorkerEffect.sigWrite r.1.wp.sig_fd])

/-- The per-tile body of fini's teardown loop (wallpaper.cpp lines
578-599): clean_up when a worker thread is live, then release the three
texture slots. -/
def fini_tile (wp : Wallpaper) : Wallpaper :=
  let wp1 := if wp.thread then clean_up wp else wp
  { wp1 with fromTex := none, toTex := none, tmpTex := none }

/-- fini (wallpaper.cpp lines 564-604): deactivate the hooks, disconnect
the timer, set wallpaper_shutdown, then run the teardown loop over every
tile of the grid. -/
def fini (s : Screen) : Screen :=
  { s with
    hook_set := false,
    timer_connected := false,
    wallpaper_shutdown := true,
    wallpapers := s.wallpapers.map fun col => col.map fini_tile }

/-- Discriminator for the worker's eventfd write effect. -/
def isSigWrite : WorkerEffect → Bool
  | WorkerEffect.sigWrite _ => true
  | _ => false

/-- Fixture: a decoder that yields a 100x100 texture (the theorems are
decoder-generic; fixtures need one concrete decoder). -/
def decodeA : List Nat → SimpleTexture := fun _ => ⟨100, 100⟩

/-- Fixture: a tile with an in-flight fetch (live thread, open eventfd and
memstream holding three received bytes, geometry recorded at fetch start
matching a 100x100 output). -/
def tileFetch : Wallpaper :=
  { sig_fd := some 5, image_fp := some [1, 2, 3],
    geometry := ⟨0, 0, 100, 100⟩, thread := true, event_source := true }

/-- Fixture: a tile whose fetch already completed this cycle. -/
def tileDone : Wallpaper := { downloaded := true }

/-- Fixture: a tile that has not completed this cycle. -/
def tileWait : Wallpaper := { failed_counter := 1 }

/-- Fixture: a screen with a 1x2 grid, no cycling, 100x100 output. -/
def screenA : Screen :=
  { timer_connected := false, wallpaper_shutdown := false,
    hook_set := false, wallpapers := [[tileFetch, tileDone]],
    cycle := false, cycle_time := 30000,
    output_width := 100, output_height := 100 }

/-- Fixture: screenA after shutdown was requested. -/
def screenSd : Screen := { screenA with wallpaper_shutdown := true }

/-- Fixture: the in-flight tile with its transport marked failed. -/
def tileFail : Wallpaper := { tileFetch with download_failed := true }

/-- Fixture: a screen whose (0,0) tile failed its download. -/
def screenFail : Screen :=
  { screenA with wallpapers := [[tileFail, tileDone]] }

/-- Fixture: the in-flight tile whose recorded geometry (50x50) no longer
matches the 100x100 output. -/
def tileStale : Wallpaper := { tileFetch with geometry := ⟨0, 0, 50, 50⟩ }

/-- Fixture: a screen whose (0,0) tile raced a geometry change. -/
def screenStale : Screen :=
  { screenA with wallpapers := [[tileStale, tileDone]] }

/-- Fixture: a tile that completed its download under an older 50x50
geometry and kept its downloaded flag (the source never clears the flag
on a geometry change: update_textures, line 468, skips downloaded
tiles). -/
def tileDoneStale : Wallpaper :=
  { downloaded := true, geometry := ⟨0, 0, 50, 50⟩ }

/-- Fixture: a screen whose (0,1) tile completed under an older geometry
generation while the in-flight (0,0) tile completes under the current
100x100 one. -/
def screenMixed : Screen :=
  { screenA with wallpapers := [[tileFetch, tileDoneStale]] }

/-- Fixture: the in-flight tile with an empty received buffer. -/
def tileEmpty : Wallpaper := { tileFetch with image_fp := some [] }

/-- Fixture: a screen whose (0,0) tile received zero bytes. -/
def screenEmpty : Screen :=
  { screenA with wallpapers := [[tileEmpty, tileDone]] }

/-- Fixture: the in-flight tile whose buffer holds bytes that are not a
valid JPEG stream. -/
def tileCorrupt : Wallpaper := { tileFetch with image_fp := some [255, 0, 17] }

/-- Fixture: a screen whose (0,0) tile downloaded a corrupt buffer, the
other tile still pending. -/
def screenCorrupt : Screen :=
  { screenA with wallpapers := [[tileCorrupt, tileWait]] }

/-- Fixture: one worker-loop iteration in which the transfer delivers two
bytes and completes normally. -/
def stepDone : StepIn :=
  { performOk := true, waitOk := true, chunk := [9, 9], numfds := 1,
    still_running := false, sdown := false }

/-- Fixture: one worker-loop iteration with the transfer still running and
the shutdown flag observed set. -/
def stepSd : StepIn :=
  { performOk := true, waitOk := true, chunk := [], numfds := 1,
    still_running := true, sdown := true }

/-- Fixture: one worker-loop iteration with the transfer still running and
no shutdown observed. -/
def stepRun : StepIn :=
  { performOk := true, waitOk := true, chunk := [4], numfds := 1,
    still_running := true, sdown := false }

/-- Fixture: a worker-loop iteration whose curl_multi_perform fails. -/
def stepPerformErr : StepIn :=
  { performOk := false, waitOk := true, chunk := [], numfds := 0,
    still_running := true, sdown := false }

lemma length_setTile (g : List (List Wallpaper)) (x y : Nat)
    (wp : Wallpaper) : (setTile g x y wp).length = g.length := by
  unfold setTile
  exact List.length_set g x _

lemma col_length_setTile (g : List (List Wallpaper)) (x y i : Nat)
    (wp : Wallpaper) :
    ((setTile g x y wp)[i]?.getD []).length = (g[i]?.getD []).length := by
  unfold setTile
  by_cases hix : i = x
  · subst hix
    by_cases hi : i < g.length
    · simp [List.getElem?_set_self, hi, List.getElem?_eq_getElem hi]
    · have h1 : (g.set i ((g[i]?.getD []).set y wp))[i]? = none :=
        List.getElem?_eq_none (by simpa [List.length_set] using hi)
      have h2 : g[i]? = none := List.getElem?_eq_none (by omega)
      rw [h1, h2]
  · rw [List.getElem?_set_ne (by omega)]

lemma getTile_setTile_self (g : List (List Wallpaper)) (x y : Nat)
    (wp : Wallpaper) (hx : x < g.length)
    (hy : y < (g[x]?.getD []).length) :
    getTile (setTile g x y wp) x y = wp := by
  unfold getTile setTile
  rw [show (g.set x ((g[x]?.getD []).set y wp))[x]? =
      some ((g[x]?.getD []).set y wp) by
    simp [List.getElem?_set_self, hx]]
  have hy' : y < (g[x]?.getD []).length := hy
  simp only [Option.getD_some]
  rw [show ((g[x]?.getD []).set y wp)[y]? = some wp by
    simp [List.getElem?_set_self, hy']]
  rfl

lemma getTile_setTile_ne (g : List (List Wallpaper)) (x y i j : Nat)
    (wp : Wallpaper) (h : i ≠ x ∨ j ≠ y) :
    getTile (setTile g x y wp) i j = getTile g i j := by
  unfold getTile setTile
  by_cases hix : i = x
  · subst hix
    have hjy : j ≠ y := by tauto
    by_cases hi : i < g.length
    · rw [show (g.set i ((g[i]?.getD []).set y wp))[i]? =
          some ((g[i]?.getD []).set y wp) by
        simp [List.getElem?_set_self, hi]]
      simp only [Option.getD_some]
      rw [List.getElem?_set_ne (by omega)]
    · have h1 : (g.set i ((g[i]?.getD []).set y wp))[i]? = none :=
        List.getElem?_eq_none (by simpa [List.length_set] using hi)
      have h2 : g[i]? = none := List.getElem?_eq_none (by omega)
      rw [h1, h2]
  · rw [List.getElem?_set_ne (by omega)]

lemma all_tiles_downloaded_iff (g : List (List Wallpaper)) :
    all_tiles_downloaded g = true ↔
      ∀ i j, i < g.length → j < (g[i]?.getD []).length →
        (getTile g i j).downloaded = true := by
  unfold all_tiles_downloaded
  rw [List.all_eq_true]
  constructor
  · intro h i j hi hj
    have hcol : g[i]? = some g[i] := List.getElem?_eq_getElem hi
    have hj' : j < g[i].length := by simpa [hcol] using hj
    have h1 := h g[i] (List.getElem_mem hi)
    rw [List.all_eq_true] at h1
    have h2 := h1 (g[i])[j] (List.getElem_mem hj')
    unfold getTile
    simpa [hcol, List.getElem?_eq_getElem hj'] using h2
  · intro h col hcol
    rw [List.all_eq_true]
    intro wp hwp
    obtain ⟨i, hi, hieq⟩ := List.mem_iff_getElem.mp hcol
    subst hieq
    obtain ⟨j, hj, hjeq⟩ := List.mem_iff_getElem.mp hwp
    subst hjeq
    have hj2 : j < (g[i]?.getD []).length := by
      simpa [List.getElem?_eq_getElem hi] using hj
    have h3 := h i j hi hj2
    unfold getTile at h3
    simpa [List.getElem?_eq_getElem hi, List.getElem?_eq_getElem hj]
      using h3

lemma getTile_commit_swap (g : List (List Wallpaper)) (i j : Nat) :
    getTile (commit_swap g) i j =
      { getTile g i j with
        fromTex := (getTile g i j).toTex,
        toTex := (getTile g i j).tmpTex,
        tmpTex := none,
        downloaded := false,
        download_failed := false } := by
  unfold getTile commit_swap
  rcases hcol : g[i]? with _ | col
  · simp [List.getElem?_map, hcol]
    rfl
  · simp only [List.getElem?_map, hcol, Option.map_some', Option.getD_some]
    rcases hwp : col[j]? with _ | wp
    · simp [List.getElem?_map, hwp]
      rfl
    · simp [List.getElem?_map, hwp]

lemma length_commit_swap (g : List (List Wallpaper)) :
    (commit_swap g).length = g.length := by
  unfold commit_swap
  simp

lemma col_length_commit_swap (g : List (List Wallpaper)) (i : Nat) :
    ((commit_swap g)[i]?.getD []).length = (g[i]?.getD []).length := by
  unfold commit_swap
  rcases hcol : g[i]? with _ | col
  · simp [List.getElem?_map, hcol]
  · simp [List.getElem?_map, hcol]

lemma geometry_checked_failed_of_failed (s : Screen) (w : Wallpaper)
    (h : w.download_failed = true) :
    (geometry_checked s w).download_failed = true := by
  unfold geometry_checked
  split <;> simp [h]

lemma geometry_checked_image_size (s : Screen) (w : Wallpaper) :
    (geometry_checked s w).image_size = w.image_size := by
  unfold geometry_checked
  split <;> rfl

lemma geometry_checked_of_match (s : Screen) (w : Wallpaper)
    (hgw : w.geometry.width = s.output_width)
    (hgh : w.geometry.height = s.output_height) :
    geometry_checked s w = w := by
  unfold geometry_checked
  simp [hgw, hgh]

lemma download_complete_success_reduce (s : Screen) (x y : Nat)
    (decode : List Nat → SimpleTexture) (efd mso : Bool) (nfd : Nat)
    (hthread : (getTile s.wallpapers x y).thread = true)
    (hsd : s.wallpaper_shutdown = false)
    (hgw : (getTile s.wallpapers x y).geometry.width = s.output_width)
    (hgh : (getTile s.wallpapers x y).geometry.height = s.output_height)
    (hfl : (getTile s.wallpapers x y).download_failed = false)
    (hne : (getTile s.wallpapers x y).image_fp.getD [] ≠ []) :
    download_complete s x y true decode efd mso nfd =
      success_path s x y (flush_size (getTile s.wallpapers x y)) decode := by
  unfold download_complete
  simp only [hthread, hsd, Bool.not_true, Bool.false_eq_true, if_false,
    Bool.not_false, if_true, not_true_eq_false, not_false_eq_true, ite_true,
    ite_false]
  rw [geometry_checked_of_match s _ (by simpa [flush_size] using hgw)
    (by simpa [flush_size] using hgh)]
  simp [hfl, flush_size, hne]

lemma download_complete_fail_reduce (s : Screen) (x y : Nat)
    (decode : List Nat → SimpleTexture) (efd mso : Bool) (nfd : Nat)
    (hthread : (getTile s.wallpapers x y).thread = true)
    (hsd : s.wallpaper_shutdown = false)
    (hfail :
      (geometry_checked s (flush_size (getTile s.wallpapers x y))).download_failed
          = true ∨
        (flush_size (getTile s.wallpapers x y)).image_size = 0) :
    download_complete s x y true decode efd mso nfd =
      fail_path s x y
        (geometry_checked s (flush_size (getTile s.wallpapers x y)))
        efd mso nfd := by
  unfold download_complete
  have hcond :
      (geometry_checked s (flush_size (getTile s.wallpapers x y))).download_failed
          = true ∨
        (geometry_checked s (flush_size (getTile s.wallpapers x y))).image_size
          = 0 := by
    rcases hfail with h | h
    · exact Or.inl h
    · exact Or.inr (by rwa [geometry_checked_image_size])
  simp [hthread, hsd, hcond]

lemma all_tiles_setTile_downloaded (g : List (List Wallpaper)) (x y : Nat)
    (wp : Wallpaper) (hx : x < g.length)
    (hy : y < (g[x]?.getD []).length) (hwp : wp.downloaded = true) :
    all_tiles_downloaded (setTile g x y wp) = true ↔
      ∀ i j, i < g.length → j < (g[i]?.getD []).length → (i ≠ x ∨ j ≠ y) →
        (getTile g i j).downloaded = true := by
  rw [all_tiles_downloaded_iff]
  constructor
  · intro h i j hi hj hne
    have h1 := h i j (by rwa [length_setTile]) (by rwa [col_length_setTile])
    rwa [getTile_setTile_ne _ _ _ _ _ _ hne] at h1
  · intro h i j hi hj
    rw [length_setTile] at hi
    rw [col_length_setTile] at hj
    by_cases hij : i = x ∧ j = y
    · obtain ⟨rfl, rfl⟩ := hij
      rw [getTile_setTile_self _ _ _ _ hx hy]
      exact hwp
    · have hne : i ≠ x ∨ j ≠ y := by tauto
      rw [getTile_setTile_ne _ _ _ _ _ _ hne]
      exact h i j hi hj hne

lemma getTile_fini_grid (g : List (List Wallpaper)) (i j : Nat) :
    getTile (g.map fun col => col.map fini_tile) i j =
      fini_tile (getTile g i j) := by
  unfold getTile
  rcases hcol : g[i]? with _ | col
  · simp [List.getElem?_map, hcol]
    rfl
  · simp only [List.getElem?_map, hcol, Option.map_some', Option.getD_some]
    rcases hwp : col[j]? with _ | wp
    · simp [List.getElem?_map, hwp]
      rfl
    · simp [List.getElem?_map, hwp]

lemma loop_body_wp_frame (step : StepIn) (st : LoopState) :
    ∃ df fp, (loop_body step st).1.wp =
      { st.wp with download_failed := df, image_fp := fp } := by
  unfold loop_body
  dsimp only
  repeat' split
  all_goals exact ⟨_, _, rfl⟩

lemma loop_body_no_sigWrite (step : StepIn) (st : LoopState) :
    (loop_body step st).2.2.filter isSigWrite = [] := by
  unfold loop_body
  dsimp only
  repeat' split
  all_goals simp [isSigWrite]

lemma loop_body_chunks_of_not_sdown (step : StepIn) (st : LoopState)
    (h : step.sdown = false) : (loop_body step st).1.chunks = st.chunks := by
  unfold loop_body
  dsimp only
  repeat' split
  all_goals simp_all

lemma loop_body_chunks_of_sdown (step : StepIn) (st : LoopState)
    (h : step.sdown = true) ( hcont : (loop_body step st).2.1 = true) :
    (loop_body step st).1.chunks = st.chunks + 1 ∧ st.chunks < 10 := by
  unfold loop_body at hcont ⊢
  dsimp only at hcont ⊢
  repeat' split at hcont
  all_goals repeat' split
  all_goals simp_all

lemma curl_loop_wp_frame (steps : List StepIn) (st : LoopState) :
    ∃ df fp, (curl_loop steps st).1.wp =
      { st.wp with download_failed := df, image_fp := fp } := by
  induction steps generalizing st with
  | nil => exact ⟨st.wp.download_failed, st.wp.image_fp, rfl⟩
  | cons step rest ih =>
    unfold curl_loop
    dsimp only
    split
    · obtain ⟨df1, fp1, h1⟩ := loop_body_wp_frame step st
      obtain ⟨df2, fp2, h2⟩ := ih (loop_body step st).1
      refine ⟨df2, fp2, ?_⟩
      rw [h2, h1]
    · exact loop_body_wp_frame step st

lemma curl_loop_no_sigWrite (steps : List StepIn) (st : LoopState) :
    (curl_loop steps st).2.2.filter isSigWrite = [] := by
  induction steps generalizing st with
  | nil => rfl
  | cons step rest ih =>
    unfold curl_loop
    dsimp only
    split
    · simp [List.filter_append, loop_body_no_sigWrite, ih]
    · exact loop_body_no_sigWrite step st

lemma curl_loop_iters_sdown (steps : List StepIn) (st : LoopState)
    (h : ∀ stp ∈ steps, stp.sdown = true) (hc : st.chunks ≤ 10) :
    (curl_loop steps st).2.1 + st.chunks ≤ 11 := by
  induction steps generalizing st with
  | nil => simp only [curl_loop]; omega
  | cons step rest ih =>
    unfold curl_loop
    dsimp only
    split
    · rename_i hcont
      have hstep := h step (List.mem_cons_self step rest)
      obtain ⟨hch, hlt⟩ := loop_body_chunks_of_sdown step st hstep hcont
      have h2 := ih (loop_body step st).1
        (fun stp hstp => h stp (List.mem_cons_of_mem _ hstp)) (by omega)
      rw [hch] at h2
      dsimp only
      omega
    · dsimp only
      omega

lemma curl_loop_iters_split (post : List StepIn)
    (hpost : ∀ stp ∈ post, stp.sdown = true) :
    ∀ (pre : List StepIn) (st : LoopState),
      (∀ stp ∈ pre, stp.sdown = false) → st.chunks ≤ 10 →
      (curl_loop (pre ++ post) st).2.1 ≤ pre.length + (11 - st.chunks) := by
  intro pre
  induction pre with
  | nil =>
    intro st hpre hc
    have := curl_loop_iters_sdown post st hpost hc
    simpa using by omega
  | cons step pre' ih =>
    intro st hpre hc
    rw [List.cons_append]
    unfold curl_loop
    dsimp only
    split
    · rename_i hcont
      have hstep : step.sdown = false := hpre step (List.mem_cons_self step pre')
      have hch := loop_body_chunks_of_not_sdown step st hstep
      have h2 := ih (loop_body step st).1
        (fun stp hstp => hpre stp (List.mem_cons_of_mem _ hstp))
        (by rw [hch]; omega)
      rw [hch] at h2
      dsimp only
      simp only [List.length_cons]
      omega
    · dsimp only
      simp only [List.length_cons]
      omega

/-- C4: every run of the fetch
worker, whatever the transfer outcomes (success, failure, or a
shutdown-forced exit), performs exactly one write to its tile's
notification descriptor, as the last thing before returning, and the only
consumer-visible tile state it writes are the tile's download buffer and
its download_failed flag: every other field of the tile is returned
unchanged. -/
theorem C4_worker_exactly_one_notification (wp : Wallpaper)
    (steps : List StepIn) (http_status : Nat) :
    (curl_download wp steps http_status).2.2.filter isSigWrite =
        [WorkerEffect.sigWrite wp.sig_fd] ∧
      (curl_download wp steps http_status).2.2.getLast? =
        some (WorkerEffect.sigWrite wp.sig_fd) ∧
      ∃ df fp, (curl_download wp steps http_status).1 =
        { wp with download_failed := df, image_fp := fp } := by
  obtain ⟨df, fp, hwp⟩ :=
    curl_loop_wp_frame steps { wp := wp, repeats := 0, chunks := 0 }
  unfold curl_download
  dsimp only
  refine ⟨?_, ?_, df, fp, ?_⟩
  · rw [List.filter_append, curl_loop_no_sigWrite]
    simp [isSigWrite, hwp]
  · rw [List.getLast?_concat]
    rw [hwp]
  · exact hwp

/-- C6: once the subsystem-wide shutdown flag is set (all loop inputs
after the pre prefix observe sdown), the worker's transfer loop executes
at most 10 further iterations beyond the one that first observes the
flag before exiting: total iterations are bounded by the pre-shutdown
iterations plus 1 (the observing iteration) plus 10. -/
theorem C6_shutdown_bounded_iterations (wp : Wallpaper)
    (pre post : List StepIn) (http_status : Nat)
    (hpre : ∀ stp ∈ pre, stp.sdown = false)
    (hpost : ∀ stp ∈ post, stp.sdown = true) :
    (curl_download wp (pre ++ post) http_status).2.1 ≤ pre.length + 1 + 10 := by
  unfold curl_download
  dsimp only
  have h1 := curl_loop_iters_split post hpost pre
    { wp := wp, repeats := 0, chunks := 0 } hpre (by simp)
  simp only at h1
  omega

theorem C6_shutdown_bounded_iterations_witness :
    (∀ stp ∈ [stepRun], stp.sdown = false) ∧
      (∀ stp ∈ List.replicate 30 stepSd, stp.sdown = true) ∧
      (curl_download tileFetch ([stepRun] ++ List.replicate 30 stepSd)
          200).2.1 ≤ [stepRun].length + 1 + 10 :=
  ⟨by decide, by decide,
    C6_shutdown_bounded_iterations tileFetch [stepRun]
      (List.replicate 30 stepSd) 200 (by decide) (by decide)⟩

lemma geometry_checked_shape (s : Screen) (w : Wallpaper) :
    ∃ df, geometry_checked s w = { w with download_failed := df } := by
  unfold geometry_checked
  split
  · exact ⟨true, rfl⟩
  · exact ⟨w.download_failed, rfl⟩

lemma geometry_checked_of_mismatch (s : Screen) (w : Wallpaper)
    (h : w.geometry.width ≠ s.output_width ∨
      w.geometry.height ≠ s.output_height) :
    geometry_checked s w = { w with download_failed := true } := by
  unfold geometry_checked
  rw [if_pos h]

lemma fail_path_acts (s : Screen) (x y : Nat) (wp : Wallpaper)
    (efd mso : Bool) (nfd : Nat) :
    (fail_path s x y wp efd mso nfd).2.1 ∈ [
      [WAction.drainNotification, WAction.cleanUpTile],
      [WAction.drainNotification, WAction.cleanUpTile,
        WAction.setTimer RETRY_TIMEOUT],
      [WAction.drainNotification, WAction.cleanUpTile,
        WAction.updateWallpaperCall, WAction.setTimer RETRY_TIMEOUT],
      [WAction.drainNotification, WAction.cleanUpTile,
        WAction.updateWallpaperCall, WAction.createEventfd,
        WAction.timerDisconnect],
      [WAction.drainNotification, WAction.cleanUpTile,
        WAction.updateWallpaperCall, WAction.createEventfd,
        WAction.openMemstream, WAction.timerDisconnect],
      [WAction.drainNotification, WAction.cleanUpTile,
        WAction.updateWallpaperCall, WAction.createEventfd,
        WAction.openMemstream, WAction.addFdListener,
        WAction.spawnThread]] := by
  unfold fail_path update_wallpaper
  dsimp only
  repeat' split
  all_goals simp

lemma fail_path_no_success_acts (s : Screen) (x y : Nat) (wp : Wallpaper)
    (efd mso : Bool) (nfd : Nat) :
    WAction.decodeJpeg ∉ (fail_path s x y wp efd mso nfd).2.1 ∧
      WAction.commitSwap ∉ (fail_path s x y wp efd mso nfd).2.1 ∧
      WAction.startFade ∉ (fail_path s x y wp efd mso nfd).2.1 := by
  have h := fail_path_acts s x y wp efd mso nfd
  simp only [List.mem_cons, List.not_mem_nil, or_false] at h
  rcases h with h | h | h | h | h | h <;> rw [h] <;>
    exact ⟨by simp, by simp, by simp⟩

/-- C10: for a tile whose worker thread handle is still live,
update_wallpaper creates no new thread, notification descriptor or
buffer and leaves the tile's fields unchanged (the whole screen except
the timer is unchanged); it only arms the shared timer with the fixed
1000 ms RETRY_TIMEOUT and returns. -/
theorem C10_live_worker_only_rearms_timer (s : Screen) (x y : Nat)
    (efd mso : Bool) (nfd : Nat)
    (h : (getTile s.wallpapers x y).thread = true) :
    update_wallpaper s x y efd mso nfd =
      ({ s with timer_connected := true },
       [WAction.setTimer RETRY_TIMEOUT]) ∧
      RETRY_TIMEOUT = 1000 := by
  constructor
  · unfold update_wallpaper
    simp [h]
  · rfl

/-- C10 witness: the theorem applied to the fixture screen at tile (0,0),
whose fetch is in flight. -/
theorem C10_live_worker_only_rearms_timer_witness :
    (getTile screenA.wallpapers 0 0).thread = true ∧
      (update_wallpaper screenA 0 0 true true 7 =
        ({ screenA with timer_connected := true },
         [WAction.setTimer RETRY_TIMEOUT]) ∧
        RETRY_TIMEOUT = 1000) :=
  ⟨by decide, C10_live_worker_only_rearms_timer screenA 0 0 true true 7
    (by decide)⟩

/-- C5: if shutdown has been requested when a tile's completion
notification is handled, the handler performs full cleanup (joins the
thread, closes the memstream and eventfd) and returns, issuing no retry
and no commit actions; and fini's teardown leaves no tile with a live
worker thread handle, with buffer and notifier freed for every tile that
had a live worker. -/
theorem C5_shutdown_cleanup_and_teardown (s : Screen) (x y : Nat)
    (decode : List Nat → SimpleTexture) (efd mso : Bool) (nfd : Nat)
    (hthread : (getTile s.wallpapers x y).thread = true)
    (hsd : s.wallpaper_shutdown = true) :
    (download_complete s x y true decode efd mso nfd =
      ({ s with
         wallpapers :=
           setTile s.wallpapers x y (clean_up (getTile s.wallpapers x y)) },
       [WAction.drainNotification, WAction.cleanUpTile], 0)) ∧
      (clean_up (getTile s.wallpapers x y)).thread = false ∧
      (clean_up (getTile s.wallpapers x y)).sig_fd = none ∧
      (clean_up (getTile s.wallpapers x y)).image_fp = none ∧
      (∀ i j, (getTile (fini s).wallpapers i j).thread = false) ∧
      (∀ i j, (getTile s.wallpapers i j).thread = true →
        (getTile (fini s).wallpapers i j).sig_fd = none ∧
          (getTile (fini s).wallpapers i j).image_fp = none) := by
  refine ⟨?_, rfl, rfl, rfl, ?_, ?_⟩
  · unfold download_complete
    simp [hthread, hsd]
  · intro i j
    unfold fini
    dsimp only
    rw [getTile_fini_grid]
    unfold fini_tile
    dsimp only
    split <;> simp_all [clean_up]
  · intro i j hlive
    unfold fini
    dsimp only
    rw [getTile_fini_grid]
    unfold fini_tile
    simp [hlive, clean_up]

/-- C5 witness: the theorem applied to the fixture screen with shutdown
already requested, at tile (0,0) which has a live worker. -/
theorem C5_shutdown_cleanup_and_teardown_witness :
    (getTile screenSd.wallpapers 0 0).thread = true ∧
      screenSd.wallpaper_shutdown = true ∧
      download_complete screenSd 0 0 true decodeA true true 7 =
        ({ screenSd with
           wallpapers :=
             setTile screenSd.wallpapers 0 0
               (clean_up (getTile screenSd.wallpapers 0 0)) },
         [WAction.drainNotification, WAction.cleanUpTile], 0) :=
  ⟨by decide, rfl,
    (C5_shutdown_cleanup_and_teardown screenSd 0 0 decodeA true true 7
      (by decide) rfl).1⟩

/-- C1 counterexample: the barrier of download_complete (wallpaper.cpp
lines 393-406) reads only the downloaded flags, with no geometry
constraint on the other tiles, and nothing ever clears the flag on a
geometry change (update_textures, line 468, skips downloaded tiles); so
when tile (0,1) completed under an older 50x50 geometry and tile (0,0)
now completes under the current 100x100 one, the commit fires although
the two tiles are Completed for different geometry generations.  This
refutes the claim that the commit is performed only if every tile is
Completed for the same geometry generation. -/
theorem C1_barrier_ignores_generation_counterexample :
    (getTile screenMixed.wallpapers 0 1).downloaded = true ∧
      (getTile screenMixed.wallpapers 0 1).geometry ≠
        get_relative_geometry screenMixed ∧
      (getTile screenMixed.wallpapers 0 0).geometry =
        get_relative_geometry screenMixed ∧
      WAction.commitSwap ∈
        (download_complete screenMixed 0 0 true decodeA true true 7).2.1 :=
  ⟨rfl, by decide, rfl, by decide⟩

/-- C1 (amended): in the completion handler's success path (live thread,
no shutdown, geometry still matching the recorded one, transport flag
clear, nonempty buffer), the grid-wide commit is performed iff every
other tile of the grid has its downloaded flag set — regardless of the
geometry generation under which each of those tiles completed (the
completing tile itself is marked downloaded first, so the barrier over
all tiles is equivalent to this); in particular, while any tile of the
grid remains not completed, neither the commit nor the crossfade start
occurs, so a permanently failing tile prevents commits indefinitely; and
on commit with periodic refresh enabled the next cycle's timer is armed
and the crossfade is started. -/
theorem C1_commit_iff_all_tiles_completed (s : Screen) (x y : Nat)
    (decode : List Nat → SimpleTexture) (efd mso : Bool) (nfd : Nat)
    (hx : x < s.wallpapers.length)
    (hy : y < (s.wallpapers[x]?.getD []).length)
    (hthread : (getTile s.wallpapers x y).thread = true)
    (hsd : s.wallpaper_shutdown = false)
    (hgw : (getTile s.wallpapers x y).geometry.width = s.output_width)
    (hgh : (getTile s.wallpapers x y).geometry.height = s.output_height)
    (hfl : (getTile s.wallpapers x y).download_failed = false)
    (hne : (getTile s.wallpapers x y).image_fp.getD [] ≠ []) :
    (WAction.commitSwap ∈
        (download_complete s x y true decode efd mso nfd).2.1 ↔
      ∀ i j, i < s.wallpapers.length →
        j < (s.wallpapers[i]?.getD []).length →
        (i ≠ x ∨ j ≠ y) → (getTile s.wallpapers i j).downloaded = true) ∧
      ((∃ i j, i < s.wallpapers.length ∧
          j < (s.wallpapers[i]?.getD []).length ∧
          (i ≠ x ∨ j ≠ y) ∧
          (getTile s.wallpapers i j).downloaded = false) →
        WAction.commitSwap ∉
            (download_complete s x y true decode efd mso nfd).2.1 ∧
          WAction.startFade ∉
            (download_complete s x y true decode efd mso nfd).2.1) ∧
      (s.cycle = true →
        WAction.commitSwap ∈
          (download_complete s x y true decode efd mso nfd).2.1 →
        WAction.setTimer s.cycle_time ∈
            (download_complete s x y true decode efd mso nfd).2.1 ∧
          WAction.startFade ∈
            (download_complete s x y true decode efd mso nfd).2.1) := by
  rw [download_complete_success_reduce s x y decode efd mso nfd hthread hsd
    hgw hgh hfl hne]
  unfold success_path
  dsimp only
  split
  · rename_i hall
    rw [all_tiles_setTile_downloaded _ _ _ _ hx hy rfl] at hall
    refine ⟨iff_of_true (by simp) hall, ?_, ?_⟩
    · intro hex
      exfalso
      obtain ⟨i, j, hi, hj, hne2, hdl⟩ := hex
      have hdl2 := hall i j hi hj hne2
      rw [hdl2] at hdl
      exact absurd hdl (by simp)
    · intro hcyc _
      constructor <;> simp [hcyc]
  · rename_i hall
    rw [all_tiles_setTile_downloaded _ _ _ _ hx hy rfl] at hall
    refine ⟨iff_of_false (by simp) hall, ?_, ?_⟩
    · intro _
      constructor <;> simp
    · intro hcyc hmem
      exfalso
      simp at hmem

/-- C1 witness: the theorem applied to the fixture screen at tile (0,0):
the only other tile is downloaded, so the commit side of the iff holds. -/
theorem C1_commit_iff_all_tiles_completed_witness :
    (getTile screenA.wallpapers 0 0).thread = true ∧
      (getTile screenA.wallpapers 0 0).image_fp.getD [] ≠ [] ∧
      (WAction.commitSwap ∈
          (download_complete screenA 0 0 true decodeA true true 7).2.1 ↔
        ∀ i j, i < screenA.wallpapers.length →
          j < (screenA.wallpapers[i]?.getD []).length →
          (i ≠ 0 ∨ j ≠ 0) →
          (getTile screenA.wallpapers i j).downloaded = true) :=
  ⟨by decide, by decide,
    (C1_commit_iff_all_tiles_completed screenA 0 0 decodeA true true 7
      (by decide) (by decide) (by decide) rfl rfl rfl rfl
      (by decide)).1⟩

/-- C3: when the success path commits (every other tile already
completed), then for every tile of the grid the post-commit previous
slot (from) equals its pre-commit current slot (to), the post-commit
current slot equals its pre-commit pending slot (tmp; for the completing
tile, the freshly decoded image), the pending slot is cleared and the
completion state (downloaded) is reset for the next cycle. -/
theorem C3_commit_rotates_buffers (s : Screen) (x y : Nat)
    (decode : List Nat → SimpleTexture) (efd mso : Bool) (nfd : Nat)
    (hx : x < s.wallpapers.length)
    (hy : y < (s.wallpapers[x]?.getD []).length)
    (hthread : (getTile s.wallpapers x y).thread = true)
    (hsd : s.wallpaper_shutdown = false)
    (hgw : (getTile s.wallpapers x y).geometry.width = s.output_width)
    (hgh : (getTile s.wallpapers x y).geometry.height = s.output_height)
    (hfl : (getTile s.wallpapers x y).download_failed = false)
    (hne : (getTile s.wallpapers x y).image_fp.getD [] ≠ [])
    (hall : ∀ i j, i < s.wallpapers.length →
      j < (s.wallpapers[i]?.getD []).length →
      (i ≠ x ∨ j ≠ y) → (getTile s.wallpapers i j).downloaded = true) :
    (∀ i j, i < s.wallpapers.length →
      j < (s.wallpapers[i]?.getD []).length → (i ≠ x ∨ j ≠ y) →
      (getTile (download_complete s x y true decode efd mso nfd).1.wallpapers
          i j).fromTex = (getTile s.wallpapers i j).toTex ∧
        (getTile (download_complete s x y true decode efd mso
            nfd).1.wallpapers i j).toTex = (getTile s.wallpapers i j).tmpTex ∧
        (getTile (download_complete s x y true decode efd mso
            nfd).1.wallpapers i j).tmpTex = none ∧
        (getTile (download_complete s x y true decode efd mso
            nfd).1.wallpapers i j).downloaded = false) ∧
      (getTile (download_complete s x y true decode efd mso nfd).1.wallpapers
          x y).fromTex = (getTile s.wallpapers x y).toTex ∧
      (getTile (download_complete s x y true decode efd mso nfd).1.wallpapers
          x y).toTex =
        some (decode ((getTile s.wallpapers x y).image_fp.getD [])) ∧
      (getTile (download_complete s x y true decode efd mso nfd).1.wallpapers
          x y).tmpTex = none ∧
      (getTile (download_complete s x y true decode efd mso nfd).1.wallpapers
          x y).downloaded = false := by
  rw [download_complete_success_reduce s x y decode efd mso nfd hthread hsd
    hgw hgh hfl hne]
  unfold success_path
  dsimp only
  split
  · refine ⟨?_, ?_⟩
    · intro i j hi hj hne2
      rw [getTile_setTile_ne _ _ _ _ _ _ hne2, getTile_commit_swap,
        getTile_setTile_ne _ _ _ _ _ _ hne2]
      exact ⟨rfl, rfl, rfl, rfl⟩
    · rw [getTile_setTile_self _ _ _ _
        (by rw [length_commit_swap, length_setTile]; exact hx)
        (by rw [col_length_commit_swap, col_length_setTile]; exact hy),
        getTile_commit_swap, getTile_setTile_self _ _ _ _ hx hy]
      exact ⟨rfl, rfl, rfl, rfl⟩
  · rename_i hnall
    rw [all_tiles_setTile_downloaded _ _ _ _ hx hy rfl] at hnall
    exact absurd hall hnall

/-- C3 witness: the theorem applied to the fixture screen at tile (0,0),
the other tile being already completed. -/
theorem C3_commit_rotates_buffers_witness :
    (getTile screenA.wallpapers 0 0).thread = true ∧
      (getTile
          (download_complete screenA 0 0 true decodeA true true
            7).1.wallpapers 0 0).toTex =
        some (decodeA ((getTile screenA.wallpapers 0 0).image_fp.getD [])) ∧
      (getTile
          (download_complete screenA 0 0 true decodeA true true
            7).1.wallpapers 0 0).tmpTex = none := by
  have h := C3_commit_rotates_buffers screenA 0 0 decodeA true true 7
    (by decide) (by decide) (by decide) rfl rfl rfl rfl (by decide)
    (by
      intro i j hi hj hne2
      have hi0 : i = 0 := by
        have : i < 1 := by simpa [screenA] using hi
        omega
      subst hi0
      have hj2 : j < 2 := by simpa [screenA] using hj
      have hj01 : j = 0 ∨ j = 1 := by omega
      rcases hj01 with rfl | rfl
      · rcases hne2 with h2 | h2 <;> exact absurd rfl h2
      · decide)
  exact ⟨by decide, h.2.2.1, h.2.2.2.1⟩

lemma setTile_setTile (g : List (List Wallpaper)) (x y : Nat)
    (a b : Wallpaper) :
    setTile (setTile g x y a) x y b = setTile g x y b := by
  unfold setTile
  by_cases hx : x < g.length
  · rw [show (g.set x ((g[x]?.getD []).set y a))[x]? =
        some ((g[x]?.getD []).set y a) by
      simp [List.getElem?_set_self, hx]]
    simp only [Option.getD_some]
    rw [List.set_set, List.set_set]
  · have h1 : g.set x ((g[x]?.getD []).set y a) = g :=
      List.set_eq_of_length_le (by omega)
    rw [h1]

lemma fail_path_state (s : Screen) (x y : Nat) (wp : Wallpaper)
    (nfd : Nat) (hx : x < s.wallpapers.length)
    (hy : y < (s.wallpapers[x]?.getD []).length) :
    (getTile (fail_path s x y wp true true nfd).1.wallpapers
        x y).failed_counter = wp.failed_counter + 1 ∧
      (¬ wp.failed_counter + 1 > 3 →
        (fail_path s x y wp true true nfd).2.1 =
          [WAction.drainNotification, WAction.cleanUpTile,
           WAction.updateWallpaperCall, WAction.createEventfd,
           WAction.openMemstream, WAction.addFdListener,
           WAction.spawnThread] ∧
        (getTile (fail_path s x y wp true true nfd).1.wallpapers
            x y).geometry = get_relative_geometry s ∧
        (getTile (fail_path s x y wp true true nfd).1.wallpapers
            x y).thread = true) ∧
      (wp.failed_counter + 1 > 3 → s.timer_connected = false →
        (fail_path s x y wp true true nfd).2.1 =
          [WAction.drainNotification, WAction.cleanUpTile,
           WAction.setTimer RETRY_TIMEOUT] ∧
        (fail_path s x y wp true true nfd).1.timer_connected = true) ∧
      (wp.failed_counter + 1 > 3 → s.timer_connected = true →
        (fail_path s x y wp true true nfd).2.1 =
          [WAction.drainNotification, WAction.cleanUpTile]) := by
  refine ⟨?_, ?_, ?_, ?_⟩
  · by_cases hc : wp.failed_counter + 1 > 3
    · by_cases htc : s.timer_connected = true
      · unfold fail_path update_wallpaper clear_failed
        simp [hc, htc, getTile_setTile_self _ _ _ _ hx hy, setTile_setTile,
          get_relative_geometry, clean_up]
      · have htc2 : s.timer_connected = false := by
          revert htc
          cases s.timer_connected <;> simp
        unfold fail_path update_wallpaper clear_failed
        simp [hc, htc2, getTile_setTile_self _ _ _ _ hx hy, setTile_setTile,
          get_relative_geometry, clean_up]
    · unfold fail_path update_wallpaper clear_failed
      simp [hc, getTile_setTile_self _ _ _ _ hx hy, setTile_setTile,
        get_relative_geometry, clean_up]
  · intro hc
    unfold fail_path update_wallpaper clear_failed
    simp [hc, getTile_setTile_self _ _ _ _ hx hy, setTile_setTile,
      get_relative_geometry, clean_up]
  · intro hc htc
    unfold fail_path update_wallpaper clear_failed
    simp [hc, htc, getTile_setTile_self _ _ _ _ hx hy, setTile_setTile,
      get_relative_geometry, clean_up]
  · intro hc htc
    unfold fail_path update_wallpaper clear_failed
    simp [hc, htc, getTile_setTile_self _ _ _ _ hx hy, setTile_setTile,
      get_relative_geometry, clean_up]

/-- C2: when the completion handler observes a failed or empty download,
it increments the tile's consecutive-failure counter; while the counter
is at most 3 a new fetch for the same tile is re-issued immediately
(update_wallpaper is called and a fresh eventfd/memstream/thread is
created, with no timer arming); on the 4th consecutive failure, with the
shared timer not already connected, exactly one delayed retry is
scheduled on the shared timer with the fixed 1000 ms RETRY_TIMEOUT and
no immediate retry happens. -/
theorem C2_failure_retry_and_backoff (s : Screen) (x y : Nat)
    (decode : List Nat → SimpleTexture) (nfd : Nat)
    (hx : x < s.wallpapers.length)
    (hy : y < (s.wallpapers[x]?.getD []).length)
    (hthread : (getTile s.wallpapers x y).thread = true)
    (hsd : s.wallpaper_shutdown = false)
    (hfail : (getTile s.wallpapers x y).download_failed = true ∨
      (getTile s.wallpapers x y).image_fp.getD [] = []) :
    RETRY_TIMEOUT = 1000 ∧
      (getTile (download_complete s x y true decode true true
          nfd).1.wallpapers x y).failed_counter =
        (getTile s.wallpapers x y).failed_counter + 1 ∧
      ((getTile s.wallpapers x y).failed_counter + 1 ≤ 3 →
        (download_complete s x y true decode true true nfd).2.1 =
          [WAction.drainNotification, WAction.cleanUpTile,
           WAction.updateWallpaperCall, WAction.createEventfd,
           WAction.openMemstream, WAction.addFdListener,
           WAction.spawnThread]) ∧
      ((getTile s.wallpapers x y).failed_counter + 1 = 4 →
        s.timer_connected = false →
        (download_complete s x y true decode true true nfd).2.1 =
          [WAction.drainNotification, WAction.cleanUpTile,
           WAction.setTimer RETRY_TIMEOUT]) := by
  have hfail2 :
      (geometry_checked s
          (flush_size (getTile s.wallpapers x y))).download_failed = true ∨
        (flush_size (getTile s.wallpapers x y)).image_size = 0 := by
    rcases hfail with h | h
    · exact Or.inl
        (geometry_checked_failed_of_failed _ _ (by simp [flush_size, h]))
    · exact Or.inr (by simp [flush_size, h])
  rw [download_complete_fail_reduce s x y decode true true nfd hthread hsd
    hfail2]
  obtain ⟨df, hdf⟩ :=
    geometry_checked_shape s (flush_size (getTile s.wallpapers x y))
  rw [hdf]
  obtain ⟨h1, h2, h3, h4⟩ := fail_path_state s x y
    { flush_size (getTile s.wallpapers x y) with download_failed := df }
    nfd hx hy
  have hfc :
      ({ flush_size (getTile s.wallpapers x y) with
         download_failed := df } : Wallpaper).failed_counter =
        (getTile s.wallpapers x y).failed_counter := rfl
  refine ⟨rfl, ?_, ?_, ?_⟩
  · rw [hfc] at h1
    exact h1
  · intro hle
    exact (h2 (by rw [hfc]; omega)).1
  · intro heq htc
    exact (h3 (by rw [hfc]; omega) htc).1

/-- C2 witness: the theorem applied to the fixture screen whose (0,0)
tile has a failed download and failure counter 0: the handler re-issues
the fetch immediately. -/
theorem C2_failure_retry_and_backoff_witness :
    (getTile screenFail.wallpapers 0 0).download_failed = true ∧
      (download_complete screenFail 0 0 true decodeA true true 7).2.1 =
        [WAction.drainNotification, WAction.cleanUpTile,
         WAction.updateWallpaperCall, WAction.createEventfd,
         WAction.openMemstream, WAction.addFdListener,
         WAction.spawnThread] :=
  ⟨by decide,
    (C2_failure_retry_and_backoff screenFail 0 0 decodeA 7 (by decide)
        (by decide) (by decide) rfl (Or.inl (by decide))).2.2.1
      (by decide)⟩

/-- C7: when the geometry recorded at fetch start differs from the
output's relative geometry at completion time (both have origin (0,0),
as get_relative_geometry guarantees), the result is treated as a failure
regardless of the transport outcome: the success path (decode, commit)
is not taken, the failure counter is incremented, and while the counter
is at most 3 the fetch is re-issued immediately with the tile's geometry
re-recorded from the output (retried against the new geometry); past the
threshold the delayed retry timer is armed instead. -/
theorem C7_stale_geometry_treated_as_failure (s : Screen) (x y : Nat)
    (decode : List Nat → SimpleTexture) (nfd : Nat)
    (hx : x < s.wallpapers.length)
    (hy : y < (s.wallpapers[x]?.getD []).length)
    (hthread : (getTile s.wallpapers x y).thread = true)
    (hsd : s.wallpaper_shutdown = false)
    (hx0 : (getTile s.wallpapers x y).geometry.x = 0)
    (hy0 : (getTile s.wallpapers x y).geometry.y = 0)
    (hgeo : (getTile s.wallpapers x y).geometry ≠ get_relative_geometry s) :
    WAction.decodeJpeg ∉
        (download_complete s x y true decode true true nfd).2.1 ∧
      WAction.commitSwap ∉
        (download_complete s x y true decode true true nfd).2.1 ∧
      (getTile (download_complete s x y true decode true true
          nfd).1.wallpapers x y).failed_counter =
        (getTile s.wallpapers x y).failed_counter + 1 ∧
      ((getTile s.wallpapers x y).failed_counter + 1 ≤ 3 →
        (download_complete s x y true decode true true nfd).2.1 =
          [WAction.drainNotification, WAction.cleanUpTile,
           WAction.updateWallpaperCall, WAction.createEventfd,
           WAction.openMemstream, WAction.addFdListener,
           WAction.spawnThread] ∧
        (getTile (download_complete s x y true decode true true
            nfd).1.wallpapers x y).geometry = get_relative_geometry s ∧
        (getTile (download_complete s x y true decode true true
            nfd).1.wallpapers x y).thread = true) ∧
      ((getTile s.wallpapers x y).failed_counter + 1 > 3 →
        s.timer_connected = false →
        (download_complete s x y true decode true true nfd).2.1 =
          [WAction.drainNotification, WAction.cleanUpTile,
           WAction.setTimer RETRY_TIMEOUT]) := by
  have hwh : (getTile s.wallpapers x y).geometry.width ≠ s.output_width ∨
      (getTile s.wallpapers x y).geometry.height ≠ s.output_height := by
    by_contra hcon
    push_neg at hcon
    obtain ⟨h1, h2⟩ := hcon
    apply hgeo
    unfold get_relative_geometry
    rw [show (getTile s.wallpapers x y).geometry =
        ⟨(getTile s.wallpapers x y).geometry.x,
         (getTile s.wallpapers x y).geometry.y,
         (getTile s.wallpapers x y).geometry.width,
         (getTile s.wallpapers x y).geometry.height⟩ from rfl,
      hx0, hy0, h1, h2]
  have hgc : geometry_checked s (flush_size (getTile s.wallpapers x y)) =
      { flush_size (getTile s.wallpapers x y) with
        download_failed := true } :=
    geometry_checked_of_mismatch _ _ (by simpa [flush_size] using hwh)
  have hfail2 :
      (geometry_checked s
          (flush_size (getTile s.wallpapers x y))).download_failed = true ∨
        (flush_size (getTile s.wallpapers x y)).image_size = 0 :=
    Or.inl (by rw [hgc])
  rw [download_complete_fail_reduce s x y decode true true nfd hthread hsd
    hfail2, hgc]
  obtain ⟨h1, h2, h3, h4⟩ := fail_path_state s x y
    { flush_size (getTile s.wallpapers x y) with download_failed := true }
    nfd hx hy
  have hfc :
      ({ flush_size (getTile s.wallpapers x y) with
         download_failed := true } : Wallpaper).failed_counter =
        (getTile s.wallpapers x y).failed_counter := rfl
  obtain ⟨hn1, hn2, hn3⟩ := fail_path_no_success_acts s x y
    { flush_size (getTile s.wallpapers x y) with download_failed := true }
    true true nfd
  refine ⟨hn1, hn2, ?_, ?_, ?_⟩
  · rw [hfc] at h1
    exact h1
  · intro hle
    exact (h2 (by rw [hfc]; omega))
  · intro hgt htc
    exact (h3 (by rw [hfc]; omega) htc).1

/-- C7 witness: the theorem applied to the fixture screen whose (0,0)
tile recorded a 50x50 geometry while the output is now 100x100. -/
theorem C7_stale_geometry_treated_as_failure_witness :
    (getTile screenStale.wallpapers 0 0).geometry ≠
        get_relative_geometry screenStale ∧
      WAction.decodeJpeg ∉
        (download_complete screenStale 0 0 true decodeA true true 7).2.1 ∧
      ((download_complete screenStale 0 0 true decodeA true true 7).2.1 =
          [WAction.drainNotification, WAction.cleanUpTile,
           WAction.updateWallpaperCall, WAction.createEventfd,
           WAction.openMemstream, WAction.addFdListener,
           WAction.spawnThread] ∧
        (getTile (download_complete screenStale 0 0 true decodeA true true
            7).1.wallpapers 0 0).geometry =
          get_relative_geometry screenStale ∧
        (getTile (download_complete screenStale 0 0 true decodeA true true
            7).1.wallpapers 0 0).thread = true) :=
  ⟨by decide,
    (C7_stale_geometry_treated_as_failure screenStale 0 0 decodeA 7
        (by decide) (by decide) (by decide) rfl rfl rfl (by decide)).1,
    (C7_stale_geometry_treated_as_failure screenStale 0 0 decodeA 7
        (by decide) (by decide) (by decide) rfl rfl rfl
        (by decide)).2.2.2.1 (by decide)⟩

lemma decodeJpeg_mem_success_path (s : Screen) (x y : Nat) (wp : Wallpaper)
    (decode : List Nat → SimpleTexture) :
    WAction.decodeJpeg ∈ (success_path s x y wp decode).2.1 := by
  unfold success_path
  dsimp only
  split <;> simp

/-- C8 counterexample: a transfer that completes normally with final HTTP
status 404 (non-2xx) and a nonempty body leaves download_failed false —
the worker never inspects the status — and the consumer then takes the
success path (the decode call happens); moreover a zero-byte download is
treated as failed by the consumer even though its download_failed flag is
false, i.e. via the size check, not the flag.  This refutes the claim
that a non-2xx completion and the zero-byte case are treated as failed
via the download_failed flag. -/
theorem C8_counterexample :
    (curl_download tileFetch [stepDone] 404).1.download_failed = false ∧
      WAction.decodeJpeg ∈
        (download_complete
            { screenA with wallpapers :=
                [[(curl_download tileFetch [stepDone] 404).1, tileDone]] }
            0 0 true decodeA true true 7).2.1 ∧
      (getTile screenEmpty.wallpapers 0 0).download_failed = false ∧
      WAction.decodeJpeg ∉
        (download_complete screenEmpty 0 0 true decodeA true true 7).2.1 := by
  refine ⟨rfl, by decide, rfl, by decide⟩

/-- C8 amended: a curl_multi_perform or curl_multi_wait transport error
sets download_failed at the iteration where it occurs; the HTTP status of
the completed transfer is never inspected (the worker's result is
independent of it), so non-2xx completions are not detected; the flag is
checked only by the consumer after notification, together with the
received byte count: the consumer takes the success (decode) path iff
the flag is clear and the buffer is nonempty. -/
theorem C8_amended_failure_flag_semantics (s : Screen) (x y : Nat)
    (decode : List Nat → SimpleTexture) (efd mso : Bool) (nfd : Nat)
    (hthread : (getTile s.wallpapers x y).thread = true)
    (hsd : s.wallpaper_shutdown = false)
    (hgw : (getTile s.wallpapers x y).geometry.width = s.output_width)
    (hgh : (getTile s.wallpapers x y).geometry.height = s.output_height) :
    (∀ (wp : Wallpaper) (stp : StepIn) (rest : List StepIn) (st : Nat),
      stp.performOk = false →
      (curl_download wp (stp :: rest) st).1.download_failed = true) ∧
      (∀ (wp : Wallpaper) (stp : StepIn) (rest : List StepIn) (st : Nat),
        stp.performOk = true → stp.waitOk = false →
        (curl_download wp (stp :: rest) st).1.download_failed = true) ∧
      (∀ (wp : Wallpaper) (steps : List StepIn) (st1 st2 : Nat),
        curl_download wp steps st1 = curl_download wp steps st2) ∧
      (WAction.decodeJpeg ∈
          (download_complete s x y true decode efd mso nfd).2.1 ↔
        ¬((getTile s.wallpapers x y).download_failed = true ∨
          (getTile s.wallpapers x y).image_fp.getD [] = [])) := by
  refine ⟨?_, ?_, fun wp steps st1 st2 => rfl, ?_⟩
  · intro wp stp rest st hperf
    unfold curl_download curl_loop loop_body
    simp [hperf]
  · intro wp stp rest st hperf hwait
    unfold curl_download curl_loop loop_body
    simp [hperf, hwait]
  · constructor
    · intro hmem
      intro hfail
      have hfail2 :
          (geometry_checked s
              (flush_size (getTile s.wallpapers x y))).download_failed
              = true ∨
            (flush_size (getTile s.wallpapers x y)).image_size = 0 := by
        rcases hfail with h | h
        · exact Or.inl
            (geometry_checked_failed_of_failed _ _ (by simp [flush_size, h]))
        · exact Or.inr (by simp [flush_size, h])
      rw [download_complete_fail_reduce s x y decode efd mso nfd hthread
        hsd hfail2] at hmem
      exact absurd hmem (fail_path_no_success_acts s x y _ efd mso nfd).1
    · intro hok
      push_neg at hok
      obtain ⟨hf, hb⟩ := hok
      have hf2 : (getTile s.wallpapers x y).download_failed = false := by
        revert hf
        cases (getTile s.wallpapers x y).download_failed <;> simp
      rw [download_complete_success_reduce s x y decode efd mso nfd hthread
        hsd hgw hgh hf2 hb]
      exact decodeJpeg_mem_success_path s x y _ decode

/-- C8 amended witness: the theorem applied to the fixture screen at tile
(0,0): the flag is clear and the buffer nonempty, so the decode path is
taken. -/
theorem C8_amended_failure_flag_semantics_witness :
    stepPerformErr.performOk = false ∧
      (curl_download tileFetch [stepPerformErr] 200).1.download_failed
        = true ∧
      (WAction.decodeJpeg ∈
          (download_complete screenA 0 0 true decodeA true true 7).2.1 ↔
        ¬((getTile screenA.wallpapers 0 0).download_failed = true ∨
          (getTile screenA.wallpapers 0 0).image_fp.getD [] = [])) :=
  ⟨rfl,
    (C8_amended_failure_flag_semantics screenA 0 0 decodeA true true 7
        (by decide) rfl rfl rfl).1 tileFetch
      stepPerformErr [] 200 rfl,
    (C8_amended_failure_flag_semantics screenA 0 0 decodeA true true 7
        (by decide) rfl rfl rfl).2.2.2⟩

/-- C9 counterexample: with a buffer that is not a valid JPEG stream, the
decoder wrapper still reports success (its Bool result is constantly
true, wallpaper.cpp line 215, and the call site at line 388 discards it),
and the completion handler takes the success path: the failure counter is
reset to 0 rather than incremented, and no immediate retry and no retry
timer is driven.  This refutes the claim that a decode failure is
detected as an error and handled like a transport failure
(retry-eligible, incrementing the counter). -/
theorem C9_counterexample :
    (texture_from_jpeg_fp decodeA [255, 0, 17]).2 = true ∧
      (getTile (download_complete screenCorrupt 0 0 true decodeA true true
          7).1.wallpapers 0 0).failed_counter = 0 ∧
      (getTile screenCorrupt.wallpapers 0 0).failed_counter = 0 ∧
      WAction.updateWallpaperCall ∉
        (download_complete screenCorrupt 0 0 true decodeA true true
          7).2.1 ∧
      (∀ t, WAction.setTimer t ∉
        (download_complete screenCorrupt 0 0 true decodeA true true
          7).2.1) := by
  refine ⟨rfl, by decide, rfl, by decide, ?_⟩
  intro t
  rw [show (download_complete screenCorrupt 0 0 true decodeA true true
      7).2.1 = [WAction.drainNotification, WAction.decodeJpeg,
      WAction.cleanUpTile] from rfl]
  simp

/-- C9 amended: no decode error path exists: texture_from_jpeg_fp
unconditionally reports success for every decoder and every buffer, and
on the success path of the completion handler (reached for any nonempty
buffer, whatever its bytes) the tile's failure counter is reset to 0, no
immediate retry is issued and, with cycling disabled, no timer is armed;
decode outcomes are never surfaced to the rendering path or the retry
machinery. -/
theorem C9_amended_no_decode_error_path (s : Screen) (x y : Nat)
    (decode : List Nat → SimpleTexture) (efd mso : Bool) (nfd : Nat)
    (hx : x < s.wallpapers.length)
    (hy : y < (s.wallpapers[x]?.getD []).length)
    (hthread : (getTile s.wallpapers x y).thread = true)
    (hsd : s.wallpaper_shutdown = false)
    (hgw : (getTile s.wallpapers x y).geometry.width = s.output_width)
    (hgh : (getTile s.wallpapers x y).geometry.height = s.output_height)
    (hfl : (getTile s.wallpapers x y).download_failed = false)
    (hne : (getTile s.wallpapers x y).image_fp.getD [] ≠ []) :
    (∀ (d : List Nat → SimpleTexture) (buf : List Nat),
      (texture_from_jpeg_fp d buf).2 = true) ∧
      (getTile (download_complete s x y true decode efd mso
          nfd).1.wallpapers x y).failed_counter = 0 ∧
      WAction.updateWallpaperCall ∉
        (download_complete s x y true decode efd mso nfd).2.1 ∧
      (s.cycle = false → ∀ t, WAction.setTimer t ∉
        (download_complete s x y true decode efd mso nfd).2.1) := by
  rw [download_complete_success_reduce s x y decode efd mso nfd hthread hsd
    hgw hgh hfl hne]
  refine ⟨fun d buf => rfl, ?_, ?_, ?_⟩
  · unfold success_path
    dsimp only
    split
    · rw [getTile_setTile_self _ _ _ _
        (by rw [length_commit_swap, length_setTile]; exact hx)
        (by rw [col_length_commit_swap, col_length_setTile]; exact hy),
        getTile_commit_swap, getTile_setTile_self _ _ _ _ hx hy]
      rfl
    · rw [getTile_setTile_self _ _ _ _ hx hy]
      rfl
  · unfold success_path
    dsimp only
    split
    · by_cases hcyc : s.cycle = true <;> simp [hcyc]
    · simp
  · intro hcyc t
    unfold success_path
    dsimp only
    split <;> simp [hcyc]

/-- C9 amended witness: the theorem applied to the fixture screen whose
(0,0) tile holds a corrupt buffer: counter reset to 0, no retry driven. -/
theorem C9_amended_no_decode_error_path_witness :
    (getTile screenCorrupt.wallpapers 0 0).image_fp.getD [] ≠ [] ∧
      (getTile (download_complete screenCorrupt 0 0 true decodeA true true
          7).1.wallpapers 0 0).failed_counter = 0 ∧
      WAction.updateWallpaperCall ∉
        (download_complete screenCorrupt 0 0 true decodeA true true
          7).2.1 :=
  ⟨by decide,
    (C9_amended_no_decode_error_path screenCorrupt 0 0 decodeA true true 7
        (by decide) (by decide) (by decide) rfl rfl rfl rfl
        (by decide)).2.1,
    (C9_amended_no_decode_error_path screenCorrupt 0 0 decodeA true true 7
        (by decide) (by decide) (by decide) rfl rfl rfl rfl
        (by decide)).2.2.1⟩
